import Mathlib

/-!
Shallow embedding of the Kairah Studio backend (`src/main.py`, FastAPI) and of
its worker loop (`src/worker/process_loop.py`), together with theorems settling
the spec claims about order submission, the order lifecycle, provider fallback,
the administrative override and scheduling.

Machine integers are modelled as `Int` (Python integers are unbounded, so no
modular reduction is required).  Firestore documents are modelled as records;
a Firestore `update(dict)` is modelled as an `OrderUpdate` record whose `some`
fields are the keys present in the dict, applied atomically by `applyUpdate`.
-/

namespace KStu

/-- Order status strings used by `main.py`: "pending", "processing",
"completed", "failed". -/
inductive Status where
  | pending
  | processing
  | completed
  | failed
deriving DecidableEq, Repr

/-- `GenerateRequest` pydantic model (`main.py` lines 38-44).  `duration` is
`Optional[int] = 6`; `voice_text` is `Optional[str] = None`. -/
structure GenerateRequest where
  userId : String
  email : String
  plan : String
  prompt : String
  duration : Option Int := some 6
  voice_text : Option String := none
deriving DecidableEq, Repr

/-- The order document stored in the `orders` collection.  The payload built in
`generate` (lines 184-191) has keys userId, email, plan, prompt (a dict whose
`details` field holds the prompt text, modelled here as `promptDetails`),
duration and status; `resultUrl` and `message` are added by later updates and
are absent (`none`) at creation. `voice_text` has no key in the payload. -/
structure OrderDoc where
  userId : String
  email : String
  plan : String
  promptDetails : String
  duration : Option Int
  status : Status
  resultUrl : Option String := none
  message : Option String := none
deriving DecidableEq, Repr

/-- `StatusResponse` pydantic model (`main.py` lines 46-50). -/
structure StatusResponse where
  orderId : Nat
  status : Status
  resultUrl : Option String := none
  message : Option String := none
deriving DecidableEq, Repr

/-- Default of `MAX_SECONDS = int(os.getenv("MAX_VIDEO_SECONDS", "180"))`
(`main.py` line 33).  The limit is a single global value, not per plan; the
definitions below take it as an explicit parameter `maxSeconds`. -/
def MAX_SECONDS_default : Int := 180

/-- Default of `ADMIN_SECRET = os.getenv("ADMIN_SECRET", "change-me")`
(`main.py` line 32). -/
def ADMIN_SECRET_default : String := "change-me"

/-- The guard `if req.duration and req.duration > MAX_SECONDS` in `generate`
(`main.py` line 181): Python truthiness makes `None` and `0` skip the check. -/
def durationTooLong (maxSeconds : Int) : Option Int → Bool
  | none => false
  | some d => decide (d ≠ 0 ∧ d > maxSeconds)

/-- Outcome of the `/generate` endpoint: an `HTTPException` (status code and
detail) or a created order document plus the HTTP response. -/
inductive GenerateResult where
  | rejected (statusCode : Nat) (detail : String)
  | accepted (doc : OrderDoc) (response : StatusResponse)
deriving DecidableEq, Repr

/-- `create_order_doc` (`main.py` lines 53-59): stores the payload with
`status` forced to "pending" (`createdAt` is a server timestamp handled by the
store, see `StoredOrder.createdDay`). -/
def create_order_doc (payload : OrderDoc) : OrderDoc :=
  { payload with status := Status.pending }

/-- The `/generate` endpoint body (`main.py` lines 178-196): duration check,
payload construction (note: `voice_text` is not copied into the payload),
order creation, and a response whose `status` field is the literal string
"processing" with message "Order queued".  `orderId` stands for the fresh
Firestore document id. -/
def generate (maxSeconds : Int) (orderId : Nat) (req : GenerateRequest) :
    GenerateResult :=
  if durationTooLong maxSeconds req.duration then
    GenerateResult.rejected 400 "duration too long"
  else
    let payload : OrderDoc :=
      { userId := req.userId
        email := req.email
        plan := req.plan
        promptDetails := req.prompt
        duration := req.duration
        status := Status.pending }
    GenerateResult.accepted (create_order_doc payload)
      { orderId := orderId
        status := Status.processing
        resultUrl := none
        message := some "Order queued" }

/-- A stored order: Firestore document id, the UTC calendar day of its
`createdAt` server timestamp, and the document. -/
structure StoredOrder where
  id : Nat
  createdDay : Nat
  doc : OrderDoc
deriving DecidableEq, Repr

/-- `/generate` acting on the order store: a rejected request leaves the store
untouched (the duration check at line 181 precedes `create_order_doc` at line
192); an accepted one appends the new document under a fresh id.  `today` is
the UTC calendar day of the server timestamp.  The endpoint reads nothing from
the store: there is no plan validation and no quota query in `main.py`. -/
def submit (maxSeconds : Int) (store : List StoredOrder) (today : Nat)
    (req : GenerateRequest) : List StoredOrder × GenerateResult :=
  match generate maxSeconds store.length req with
  | GenerateResult.rejected c d => (store, GenerateResult.rejected c d)
  | GenerateResult.accepted doc resp =>
      (store ++ [⟨store.length, today, doc⟩], GenerateResult.accepted doc resp)

/-- Whether the endpoint raised an `HTTPException`. -/
def isRejected : GenerateResult → Bool
  | GenerateResult.rejected _ _ => true
  | GenerateResult.accepted _ _ => false

/-- An entry-plan request with duration 7 seconds: above the spec table value
(6) for the entry plan, far below the code's global `MAX_SECONDS` of 180. -/
def entryReq7 : GenerateRequest :=
  { userId := "u1", email := "u1@x", plan := "entry", prompt := "a cat",
    duration := some 7, voice_text := none }

/-- A request whose plan string is outside {entry, pro, diamond, lifetime}. -/
def bogusPlanReq : GenerateRequest :=
  { userId := "u1", email := "u1@x", plan := "not-a-plan", prompt := "a cat",
    duration := some 6, voice_text := none }

/-- One already-stored entry-plan order by user "u1" created on UTC day 5. -/
def entryStore : List StoredOrder :=
  [⟨0, 5, { userId := "u1", email := "u1@x", plan := "entry",
            promptDetails := "a cat", duration := some 6,
            status := Status.pending, resultUrl := none, message := none }⟩]

/-- Outcome of one provider call as seen by `process_order_job`:
`ok bytes` models a return of `{"ok": True}` after writing `bytes` to the
output path; `notOk err` models a return of `{"ok": False, "error": err}`
(polling timeout "timeout", "no result", missing HF token, an HF non-200
status); `raised msg` models a raised exception (`raise_for_status` on a
non-2xx response, an httpx timeout, malformed JSON, the `RuntimeError` for a
missing RunDiffusion key). -/
inductive ProviderOutcome where
  | ok (bytes : String)
  | notOk (err : String)
  | raised (msg : String)
deriving DecidableEq, Repr

/-- The provider block of `process_order_job` (`main.py` lines 159-166):

    try:
        res = await call_rundiffusion_generate(...)
        if not res.get("ok"):
            res = await call_hf_generate(...)
    except Exception as e:
        res = {"ok": False, "error": str(e)}

An exception raised by the primary is caught by the outer handler without
ever reaching the fallback; only a primary that returns `ok = False` lets the
secondary run (and an exception raised by the secondary is caught the same
way). Result: the produced bytes, or the final error string. -/
def orchestrate : ProviderOutcome → ProviderOutcome → Except String String
  | ProviderOutcome.ok b, _ => Except.ok b
  | ProviderOutcome.raised m, _ => Except.error m
  | ProviderOutcome.notOk _, ProviderOutcome.ok b => Except.ok b
  | ProviderOutcome.notOk _, ProviderOutcome.notOk e2 => Except.error e2
  | ProviderOutcome.notOk _, ProviderOutcome.raised m => Except.error m

/-- The secondary provider is reached exactly when the primary returned a
not-ok result without raising. -/
def fallbackAttempted : ProviderOutcome → Bool
  | ProviderOutcome.notOk _ => true
  | _ => false

/-- A Firestore `update(dict)` on an order document: each `some` field is a
key present in the dict; the whole record is written in one atomic call to
`update_order` (`main.py` lines 61-62). -/
structure OrderUpdate where
  status : Option Status := none
  resultUrl : Option String := none
  message : Option String := none
deriving DecidableEq, Repr

/-- Applying one atomic update: present keys overwrite, absent keys keep
their stored value. -/
def applyUpdate (o : OrderDoc) (u : OrderUpdate) : OrderDoc :=
  { o with
    status := match u.status with
      | some s => s
      | none => o.status
    resultUrl := match u.resultUrl with
      | some r => some r
      | none => o.resultUrl
    message := match u.message with
      | some m => some m
      | none => o.message }

/-- One observable action of `process_order_job`: an atomic order update, a
provider call, or the artifact upload (`upload_blob_and_get_url` with the
written bytes and the destination key `orders/{order_id}.mp4`).  The
constructors `mergeVoice` and `watermark` name the post-processing steps the
spec describes; `process_order_job` contains no code emitting them. -/
inductive ProcAction where
  | update (u : OrderUpdate)
  | callPrimary
  | callSecondary
  | mergeVoice
  | watermark
  | upload (bytes : String) (destKey : String)
deriving DecidableEq, Repr

/-- `process_order_job` (`main.py` lines 149-175) as the list of actions it
performs, parametrised by the outcomes of the two provider calls and of the
upload (an `Except.error` models an exception raised while uploading or
signing, caught by the outer handler).  Steps, in code order:
1. `update({"status": "processing"})` — unconditional, whatever the stored
   status currently is;
2. `duration = int(order_doc.get("duration", 6))` — a `None` duration makes
   `int(None)` raise `TypeError`, caught by the outer handler which marks the
   order failed;
3. if `duration > MAX_SECONDS`: `update({"status": "failed", "message":
   "duration exceeds limit"})` and return;
4. primary call, fallback as in `orchestrate`; on a not-ok result
   `update({"status": "failed", "message": res["error"]})` and return;
5. upload to `orders/{order_id}.mp4`; on success one atomic
   `update({"status": "completed", "resultUrl": url})`, on an exception
   `update({"status": "failed", "message": str(e)})`. -/
def process_order_job (maxSeconds : Int) (orderId : Nat) (doc : OrderDoc)
    (primary secondary : ProviderOutcome)
    (uploadResult : Except String String) : List ProcAction :=
  ProcAction.update { status := some Status.processing } ::
  match doc.duration with
  | none =>
      [ProcAction.update { status := some Status.failed,
                           message := some "TypeError: int() of NoneType" }]
  | some d =>
      if d > maxSeconds then
        [ProcAction.update { status := some Status.failed,
                             message := some "duration exceeds limit" }]
      else
        ProcAction.callPrimary ::
        ((if fallbackAttempted primary then [ProcAction.callSecondary]
          else []) ++
          match orchestrate primary secondary with
          | Except.error e =>
              [ProcAction.update { status := some Status.failed,
                                   message := some e }]
          | Except.ok b =>
              ProcAction.upload b ("orders/" ++ toString orderId ++ ".mp4") ::
              match uploadResult with
              | Except.ok url =>
                  [ProcAction.update { status := some Status.completed,
                                       resultUrl := some url }]
              | Except.error e =>
                  [ProcAction.update { status := some Status.failed,
                                       message := some e }])

/-- The atomic updates among a list of actions. -/
def updatesOf (acts : List ProcAction) : List OrderUpdate :=
  acts.filterMap fun a =>
    match a with
    | ProcAction.update u => some u
    | _ => none

/-- Every successive document state along a list of atomic updates, the
initial state included. -/
def statesFrom (init : OrderDoc) : List OrderUpdate → List OrderDoc
  | [] => [init]
  | u :: us => init :: statesFrom (applyUpdate init u) us

/-- Every successive state of an order document along a run, the initial
state included. -/
def statesOf (init : OrderDoc) (acts : List ProcAction) : List OrderDoc :=
  statesFrom init (updatesOf acts)

/-- The observed status sequence of a run. -/
def statusTrace (init : OrderDoc) (acts : List ProcAction) : List Status :=
  (statesOf init acts).map OrderDoc.status

/-- The document after a run. -/
def runDoc (init : OrderDoc) (acts : List ProcAction) : OrderDoc :=
  (updatesOf acts).foldl applyUpdate init

/-- A freshly created pending order document, as `generate` stores it. -/
def freshDoc : OrderDoc :=
  { userId := "u1", email := "u1@x", plan := "entry",
    promptDetails := "a cat", duration := some 6,
    status := Status.pending, resultUrl := none, message := none }

/-- Position of a status along the lifecycle chain
pending → processing → {completed | failed}; a step whose rank decreases
moves the order backward. -/
def statusRank : Status → Nat
  | Status.pending => 0
  | Status.processing => 1
  | Status.completed => 2
  | Status.failed => 2

/-- Outcome of the `/admin/mark-completed/{order_id}` endpoint:
`forbidden 403` is the `HTTPException` for a wrong secret; `storageError`
models the exception the Firestore client raises when `update` targets a
missing document — the endpoint has no handler for it, so it surfaces as an
unhandled server error (HTTP 500), not as an `HTTPException` 404. -/
inductive MarkResult where
  | forbidden (code : Nat)
  | ok
  | storageError (msg : String)
deriving DecidableEq, Repr

/-- The single update performed by `mark_completed` (`main.py` line 211):
`{"status": "completed"}` — no other key, in particular no result
location. -/
def markCompletedUpdate : OrderUpdate :=
  { status := some Status.completed }

/-- `mark_completed` (`main.py` lines 207-212): reject with 403 when the
`x-admin-secret` header (possibly absent) differs from `ADMIN_SECRET`;
otherwise apply `markCompletedUpdate` to the addressed document, whatever its
current state.  The existence check is not in the endpoint: a missing id
means the storage client raises (`storageError`). -/
def mark_completed (adminSecret : String) (xAdminSecret : Option String)
    (store : List StoredOrder) (orderId : Nat) :
    List StoredOrder × MarkResult :=
  if xAdminSecret ≠ some adminSecret then
    (store, MarkResult.forbidden 403)
  else if store.any (fun s => s.id == orderId) then
    (store.map (fun s =>
        if s.id == orderId then
          { s with doc := applyUpdate s.doc markCompletedUpdate }
        else s),
      MarkResult.ok)
  else
    (store, MarkResult.storageError "document not found")

/-- The `/status/{order_id}` endpoint (`main.py` lines 198-204): 404 when the
document does not exist, otherwise the stored status, resultUrl and
message. -/
def statusEndpoint (store : List StoredOrder) (orderId : Nat) :
    Except Nat StatusResponse :=
  match store.find? (fun s => s.id == orderId) with
  | none => Except.error 404
  | some s =>
      Except.ok
        { orderId := orderId, status := s.doc.status,
          resultUrl := s.doc.resultUrl, message := s.doc.message }

/-- Scheduling state of one order right after `generate` returned: the stored
status, whether the FastAPI background task enqueued at line 195 is still
waiting to run, and how many executions of `process_order_job` for this order
are currently in flight (an execution suspends at each awaited provider
call). -/
structure SchedState where
  status : Status
  taskQueued : Bool
  inFlight : Nat
deriving DecidableEq, Repr

/-- State right after a successful `/generate`: document stored "pending"
(line 192), background task enqueued (line 195), nothing running yet. -/
def postSubmit : SchedState :=
  { status := Status.pending, taskQueued := true, inFlight := 0 }

/-- The two ways an execution of `process_order_job` for this order starts,
each modelled with its first status write made atomic with the start:
`bgStart` — the background task enqueued by `generate` runs; it never
inspects the stored status (`process_order_job` line 152 updates
unconditionally); `pollStart` — the worker loop
(`src/worker/process_loop.py` lines 6-15) streams orders whose status is
"pending" and runs `process_order_job` on each. -/
inductive SchedStep : SchedState → SchedState → Prop
  | bgStart (s : SchedState) (h : s.taskQueued = true) :
      SchedStep s
        { status := Status.processing, taskQueued := false,
          inFlight := s.inFlight + 1 }
  | pollStart (s : SchedState) (h : s.status = Status.pending) :
      SchedStep s
        { status := Status.processing, taskQueued := s.taskQueued,
          inFlight := s.inFlight + 1 }

/-- Bound on how many further executions can still start from a scheduling
state: the in-flight ones plus one for a queued task plus one for a pending
status. -/
def schedMeasure (s : SchedState) : Nat :=
  s.inFlight + (if s.taskQueued then 1 else 0) +
    (if s.status = Status.pending then 1 else 0)

/-- An entry-plan request that also asks for a voice track. -/
def voiceReq : GenerateRequest :=
  { userId := "u1", email := "u1@x", plan := "entry", prompt := "a cat",
    duration := some 6, voice_text := some "hello there" }

/-- A store holding one freshly created pending order with id 0. -/
def adminStore : List StoredOrder :=
  [⟨0, 0, freshDoc⟩]

/-- `freshDoc` after the administrative override: status "completed", no
resultUrl, no message. -/
def adminCompletedDoc : OrderDoc :=
  { freshDoc with status := Status.completed }

/-- A store holding one order with id 0 currently "processing". -/
def processingStore : List StoredOrder :=
  [⟨0, 0, { freshDoc with status := Status.processing }⟩]

/-- A `SchedStep` never increases `schedMeasure`: starting an execution
consumes either the queued task or the pending status. -/
theorem schedMeasure_step {a b : SchedState} (h : SchedStep a b) :
    schedMeasure b ≤ schedMeasure a := by
  cases h with
  | bgStart hq =>
      by_cases hp : a.status = Status.pending <;>
        simp [schedMeasure, hq, hp]
  | pollStart hp =>
      by_cases hq : a.taskQueued <;> simp [schedMeasure, hp, hq]

/-- Along any run from `postSubmit`, `schedMeasure` stays at most 2. -/
theorem schedMeasure_le {s : SchedState}
    (h : Relation.ReflTransGen SchedStep postSubmit s) : schedMeasure s ≤ 2 := by
  induction h with
  | refl => decide
  | tail _ hbc ih => exact le_trans (schedMeasure_step hbc) ih

/-- C1 counterexample: the spec table gives the entry plan a maxDuration of 6,
yet submitting an entry-plan request with duration 7 (which exceeds 6) under
the default configuration is accepted and creates an order record: the code
has no per-plan limit, only the global `MAX_SECONDS`. -/
theorem C1_counterexample :
    (7 : Int) > 6 ∧
      isRejected (submit MAX_SECONDS_default [] 0 entryReq7).2 = false ∧
      (submit MAX_SECONDS_default [] 0 entryReq7).1.length = 1 := by
  decide

/-- C1 (amended): the duration limit is the single global `MAX_SECONDS`
applied uniformly to every plan; a submission whose duration is non-null,
non-zero and greater than `MAX_SECONDS` is rejected with HTTP 400
"duration too long" and creates no order record. -/
theorem C1_amended (maxSeconds : Int) (store : List StoredOrder) (today : Nat)
    (req : GenerateRequest) (d : Int) (hd : req.duration = some d)
    (h0 : d ≠ 0) (hgt : d > maxSeconds) :
    submit maxSeconds store today req =
      (store, GenerateResult.rejected 400 "duration too long") := by
  unfold submit generate
  have hb : durationTooLong maxSeconds req.duration = true := by
    rw [hd]
    simp [durationTooLong, h0, hgt]
  simp [hb]

/-- C1 witness: an entry request of 200 seconds under the default limit 180 is
rejected and the (empty) store stays empty. -/
theorem C1_amended_witness :
    submit MAX_SECONDS_default [] 0 { entryReq7 with duration := some 200 } =
      ([], GenerateResult.rejected 400 "duration too long") :=
  C1_amended MAX_SECONDS_default [] 0 _ 200 rfl (by decide) (by decide)

/-- C2 counterexample: a submission whose plan identifier is not in the
recognized set is accepted and creates an order — `generate` never inspects
`req.plan`, so no `InvalidPlan` error exists. -/
theorem C2_counterexample :
    isRejected (submit MAX_SECONDS_default [] 0 bogusPlanReq).2 = false ∧
      (submit MAX_SECONDS_default [] 0 bogusPlanReq).1.length = 1 ∧
      (submit MAX_SECONDS_default [] 0 bogusPlanReq).1.map
          (fun s => s.doc.plan) = ["not-a-plan"] := by
  decide

/-- C2 (amended): the plan identifier is never validated — the outcome of
`generate` is identical whatever plan string the request carries, so no
submission fails because of an unrecognized plan. -/
theorem C2_amended (maxSeconds : Int) (orderId : Nat) (req : GenerateRequest)
    (p1 p2 : String) :
    isRejected (generate maxSeconds orderId { req with plan := p1 }) =
      isRejected (generate maxSeconds orderId { req with plan := p2 }) := by
  unfold generate
  cases h : durationTooLong maxSeconds req.duration <;> simp [h, isRejected]

/-- C3 counterexample: user "u1" on the entry plan already has one order
created on UTC day 5; a second submission by the same user on the same day is
accepted and creates a second order — the code performs no quota query. -/
theorem C3_counterexample :
    isRejected (submit MAX_SECONDS_default entryStore 5 entryReq7).2 = false ∧
      (submit MAX_SECONDS_default entryStore 5 entryReq7).1.length = 2 := by
  decide

/-- C3 (amended): there is no daily quota: whenever the duration check passes,
a submission creates a new order regardless of how many orders the same user
already has in the store (on any day, any plan). -/
theorem C3_amended (maxSeconds : Int) (store : List StoredOrder) (today : Nat)
    (req : GenerateRequest)
    (h : durationTooLong maxSeconds req.duration = false) :
    (submit maxSeconds store today req).1.length = store.length + 1 := by
  unfold submit generate
  simp [h]

/-- C3 witness: with one same-day entry order by "u1" already stored, a second
entry submission by "u1" yields a store of two orders. -/
theorem C3_amended_witness :
    (submit MAX_SECONDS_default entryStore 5
        { entryReq7 with duration := some 6 }).1.length =
      entryStore.length + 1 :=
  C3_amended MAX_SECONDS_default entryStore 5 _ (by decide)

/-- C6 counterexample: the primary provider raises (how a non-2xx response, a
transport timeout or a malformed payload surface, via `raise_for_status` /
httpx), the secondary would succeed — yet the secondary is never attempted
and the order ends `failed` instead of `completed`: the `except` block
swallows the exception after the fallback branch is already unreachable. -/
theorem C6_counterexample :
    orchestrate (ProviderOutcome.raised "boom") (ProviderOutcome.ok "VID") =
        Except.error "boom" ∧
      ProcAction.callSecondary ∉
        process_order_job 180 0 freshDoc (ProviderOutcome.raised "boom")
          (ProviderOutcome.ok "VID") (Except.ok "http://signed") ∧
      statusTrace freshDoc
          (process_order_job 180 0 freshDoc (ProviderOutcome.raised "boom")
            (ProviderOutcome.ok "VID") (Except.ok "http://signed")) =
        [Status.pending, Status.processing, Status.failed] :=
  ⟨rfl, by decide, by decide⟩

/-- C6 (amended): the secondary provider is attempted exactly when the
primary returns a not-ok result without raising an exception; in that case a
successful secondary (followed by a successful upload) completes the order,
while any exception raised by the primary call skips the fallback
entirely. -/
theorem C6_amended (maxSeconds : Int) (orderId : Nat) (doc : OrderDoc)
    (d : Int) (e b url m : String) (hd : doc.duration = some d)
    (hle : ¬ d > maxSeconds) :
    (ProcAction.callSecondary ∈
        process_order_job maxSeconds orderId doc (ProviderOutcome.notOk e)
          (ProviderOutcome.ok b) (Except.ok url) ∧
      (runDoc doc
          (process_order_job maxSeconds orderId doc (ProviderOutcome.notOk e)
            (ProviderOutcome.ok b) (Except.ok url))).status =
        Status.completed) ∧
      ∀ sec : ProviderOutcome, ∀ ur : Except String String,
        ProcAction.callSecondary ∉
          process_order_job maxSeconds orderId doc
            (ProviderOutcome.raised m) sec ur := by
  constructor
  · constructor
    · simp [process_order_job, hd, hle, fallbackAttempted, orchestrate]
    · simp [process_order_job, hd, hle, fallbackAttempted, orchestrate,
        runDoc, updatesOf, applyUpdate]
  · intro sec ur
    simp [process_order_job, hd, hle, fallbackAttempted, orchestrate]

/-- C6 witness: a concrete run where the primary reports a not-ok result and
the secondary succeeds reaches `completed` via the fallback; a raising
primary never reaches the secondary. -/
theorem C6_amended_witness :
    (ProcAction.callSecondary ∈
        process_order_job 180 0 freshDoc (ProviderOutcome.notOk "timeout")
          (ProviderOutcome.ok "VID") (Except.ok "http://signed") ∧
      (runDoc freshDoc
          (process_order_job 180 0 freshDoc (ProviderOutcome.notOk "timeout")
            (ProviderOutcome.ok "VID") (Except.ok "http://signed"))).status =
        Status.completed) ∧
      ∀ sec : ProviderOutcome, ∀ ur : Except String String,
        ProcAction.callSecondary ∉
          process_order_job 180 0 freshDoc
            (ProviderOutcome.raised "boom") sec ur :=
  C6_amended 180 0 freshDoc 6 "timeout" "VID" "http://signed" "boom"
    rfl (by decide)

/-- C4 counterexample: a pending order is force-completed by the
administrative override (the documented exception); the background task
enqueued for it at submission then runs `process_order_job`, whose first,
unconditional update moves the order from "completed" back to "processing" —
a backward transition performed by the execution procedure itself, not by the
override. -/
theorem C4_counterexample :
    mark_completed ADMIN_SECRET_default (some "change-me") adminStore 0 =
        ([⟨0, 0, adminCompletedDoc⟩], MarkResult.ok) ∧
      statusTrace adminCompletedDoc
          (process_order_job 180 0 adminCompletedDoc (ProviderOutcome.ok "VID")
            (ProviderOutcome.notOk "x") (Except.ok "http://signed")) =
        [Status.completed, Status.processing, Status.completed] ∧
      statusRank Status.processing < statusRank Status.completed := by
  decide

/-- C4 (amended): a single run of the execution procedure on a freshly
created pending order observes exactly
pending → processing → completed or pending → processing → failed; but the
procedure's first update is unconditional, so an order that already left
"pending" (for example force-completed by the override) is moved back to
"processing" when an execution subsequently runs. -/
theorem C4_amended (maxSeconds : Int) (orderId : Nat) (doc : OrderDoc)
    (p s : ProviderOutcome) (u : Except String String)
    (h : doc.status = Status.pending) :
    statusTrace doc (process_order_job maxSeconds orderId doc p s u) =
        [Status.pending, Status.processing, Status.completed] ∨
      statusTrace doc (process_order_job maxSeconds orderId doc p s u) =
        [Status.pending, Status.processing, Status.failed] := by
  cases hdur : doc.duration with
  | none =>
      right
      simp [process_order_job, hdur, statusTrace, statesOf, statesFrom,
        updatesOf, applyUpdate, h]
  | some d =>
      by_cases hgt : d > maxSeconds
      · right
        simp [process_order_job, hdur, hgt, statusTrace, statesOf, statesFrom,
          updatesOf, applyUpdate, h]
      · cases p <;> cases s <;> cases u <;>
          simp [process_order_job, hdur, hgt, statusTrace, statesOf,
            statesFrom, updatesOf, applyUpdate, orchestrate,
            fallbackAttempted, h]

/-- C4 witness: a concrete successful run observes the full forward chain. -/
theorem C4_amended_witness :
    statusTrace freshDoc
        (process_order_job 180 0 freshDoc (ProviderOutcome.ok "VID")
          (ProviderOutcome.ok "VID") (Except.ok "http://signed")) =
        [Status.pending, Status.processing, Status.completed] ∨
      statusTrace freshDoc
          (process_order_job 180 0 freshDoc (ProviderOutcome.ok "VID")
            (ProviderOutcome.ok "VID") (Except.ok "http://signed")) =
        [Status.pending, Status.processing, Status.failed] :=
  C4_amended 180 0 freshDoc (ProviderOutcome.ok "VID")
    (ProviderOutcome.ok "VID") (Except.ok "http://signed") rfl

/-- C5 counterexample: the administrative override writes
`{"status": "completed"}` alone, so the resulting record has
`status = completed` with `resultUrl` still null — refuting
"resultLocation is non-null iff status == completed" and refuting that every
operation setting `completed` sets the result location in the same update. -/
theorem C5_counterexample :
    markCompletedUpdate.status = some Status.completed ∧
      markCompletedUpdate.resultUrl = none ∧
      (mark_completed ADMIN_SECRET_default (some ADMIN_SECRET_default)
          adminStore 0).2 = MarkResult.ok ∧
      ((mark_completed ADMIN_SECRET_default (some ADMIN_SECRET_default)
            adminStore 0).1.map fun s => (s.doc.status, s.doc.resultUrl)) =
        [(Status.completed, (none : Option String))] := by
  decide

/-- C5 (amended): along a single run of the execution procedure on a freshly
created order (status "pending", `resultUrl` and `message` null), every
observable state satisfies both equivalences — `resultUrl` non-null iff
"completed", `message` non-null iff "failed" — and each terminal update
writes its status together with its payload field in one atomic update; the
administrative override, however, breaks the first equivalence by completing
without a result location. -/
theorem C5_amended (maxSeconds : Int) (orderId : Nat) (doc : OrderDoc)
    (p s : ProviderOutcome) (u : Except String String)
    (h1 : doc.status = Status.pending) (h2 : doc.resultUrl = none)
    (h3 : doc.message = none) :
    ∀ st ∈ statesOf doc (process_order_job maxSeconds orderId doc p s u),
      ((st.resultUrl ≠ none ↔ st.status = Status.completed) ∧
        (st.message ≠ none ↔ st.status = Status.failed)) := by
  cases hdur : doc.duration with
  | none =>
      simp [process_order_job, hdur, statesOf, statesFrom, updatesOf,
        applyUpdate, h1, h2, h3]
  | some d =>
      by_cases hgt : d > maxSeconds
      · simp [process_order_job, hdur, hgt, statesOf, statesFrom, updatesOf,
          applyUpdate, h1, h2, h3]
      · cases p <;> cases s <;> cases u <;>
          simp [process_order_job, hdur, hgt, statesOf, statesFrom, updatesOf,
            applyUpdate, orchestrate, fallbackAttempted, h1, h2, h3]

/-- C5 witness: the initial state of a concrete run satisfies both
equivalences. -/
theorem C5_amended_witness :
    (freshDoc.resultUrl ≠ none ↔ freshDoc.status = Status.completed) ∧
      (freshDoc.message ≠ none ↔ freshDoc.status = Status.failed) :=
  C5_amended 180 0 freshDoc (ProviderOutcome.ok "VID")
    (ProviderOutcome.ok "VID") (Except.ok "http://signed") rfl rfl rfl
    freshDoc (by decide)

/-- C7 counterexample: with the correct secret on an existing "processing"
order, the override returns ok and sets status "completed", yet the stored
`resultUrl` is still null: no synthetic result location is set, contrary to
the claim. -/
theorem C7_counterexample :
    mark_completed ADMIN_SECRET_default (some ADMIN_SECRET_default)
        processingStore 0 = ([⟨0, 0, adminCompletedDoc⟩], MarkResult.ok) ∧
      ((mark_completed ADMIN_SECRET_default (some ADMIN_SECRET_default)
            processingStore 0).1.map fun s => s.doc.resultUrl) =
        [(none : Option String)] := by
  decide

/-- C7 (amended): a secret differing from the administrative token yields 403
and leaves the store unchanged; with the correct secret the override never
writes any result location, and when the order exists it returns ok after
forcing only the status of the addressed order to "completed" (a missing
order is a storage-layer error surfaced as an unhandled exception, not a
handled 404). -/
theorem C7_amended (adminSecret : String) (store : List StoredOrder)
    (orderId : Nat) :
    (∀ x : Option String, x ≠ some adminSecret →
        mark_completed adminSecret x store orderId =
          (store, MarkResult.forbidden 403)) ∧
      ((mark_completed adminSecret (some adminSecret) store orderId).1.map
          fun s => s.doc.resultUrl) = store.map (fun s => s.doc.resultUrl) ∧
      (store.any (fun s => s.id == orderId) = true →
        ((mark_completed adminSecret (some adminSecret) store orderId).2 =
            MarkResult.ok ∧
          ∀ s ∈ (mark_completed adminSecret (some adminSecret) store
              orderId).1,
            s.id = orderId → s.doc.status = Status.completed)) := by
  refine ⟨fun x hx => ?_, ?_, fun hex => ⟨?_, ?_⟩⟩
  · simp [mark_completed, hx]
  · by_cases hex2 : store.any (fun s => s.id == orderId) = true
    · simp only [mark_completed, hex2, ne_eq, not_true_eq_false, if_false,
        if_true, List.map_map]
      refine List.map_congr_left fun s _ => ?_
      by_cases hid : s.id = orderId <;>
        simp [hid, applyUpdate, markCompletedUpdate]
    · simp [mark_completed, hex2]
  · simp [mark_completed, hex]
  · intro s hs hid
    simp only [mark_completed, hex, ne_eq, not_true_eq_false, if_false,
      if_true, List.mem_map] at hs
    obtain ⟨t, _, rfl⟩ := hs
    by_cases ht : (t.id == orderId) = true
    · simp [ht, applyUpdate, markCompletedUpdate]
    · simp [ht] at hid
      simp [hid] at ht

/-- C7 witness: wrong secret gives 403 with the store untouched; the correct
secret completes the stored order. -/
theorem C7_amended_witness :
    mark_completed ADMIN_SECRET_default (some "wrong") processingStore 0 =
        (processingStore, MarkResult.forbidden 403) ∧
      ((mark_completed ADMIN_SECRET_default (some ADMIN_SECRET_default)
            processingStore 0).2 = MarkResult.ok ∧
        ∀ s ∈ (mark_completed ADMIN_SECRET_default
            (some ADMIN_SECRET_default) processingStore 0).1,
          s.id = 0 → s.doc.status = Status.completed) :=
  ⟨(C7_amended ADMIN_SECRET_default processingStore 0).1 (some "wrong")
      (by decide),
    (C7_amended ADMIN_SECRET_default processingStore 0).2.2 (by decide)⟩

/-- C8 counterexample: an entry-plan submission requesting a voice track
drops `voice_text` from the stored payload, and the successful run persists
the provider's bytes unchanged — no watermark step, no voice-merge step —
yet the order completes. -/
theorem C8_counterexample :
    generate 180 0 voiceReq =
        GenerateResult.accepted freshDoc
          { orderId := 0, status := Status.processing, resultUrl := none,
            message := some "Order queued" } ∧
      ProcAction.watermark ∉
        process_order_job 180 0 freshDoc (ProviderOutcome.ok "RAWVID")
          (ProviderOutcome.notOk "x") (Except.ok "http://signed") ∧
      ProcAction.mergeVoice ∉
        process_order_job 180 0 freshDoc (ProviderOutcome.ok "RAWVID")
          (ProviderOutcome.notOk "x") (Except.ok "http://signed") ∧
      ProcAction.upload "RAWVID" "orders/0.mp4" ∈
        process_order_job 180 0 freshDoc (ProviderOutcome.ok "RAWVID")
          (ProviderOutcome.notOk "x") (Except.ok "http://signed") ∧
      (runDoc freshDoc
          (process_order_job 180 0 freshDoc (ProviderOutcome.ok "RAWVID")
            (ProviderOutcome.notOk "x") (Except.ok "http://signed"))).status =
        Status.completed := by
  decide

/-- C8 (amended): no post-processing exists: for every plan, request and
outcome, the execution procedure performs no watermark and no voice-merge
action, and whatever bytes it uploads are exactly the bytes the provider
chain produced. -/
theorem C8_amended (maxSeconds : Int) (orderId : Nat) (doc : OrderDoc)
    (p s : ProviderOutcome) (u : Except String String) :
    ProcAction.watermark ∉ process_order_job maxSeconds orderId doc p s u ∧
      ProcAction.mergeVoice ∉ process_order_job maxSeconds orderId doc p s u ∧
      ∀ b k, ProcAction.upload b k ∈
          process_order_job maxSeconds orderId doc p s u →
        orchestrate p s = Except.ok b := by
  cases hdur : doc.duration with
  | none => simp [process_order_job, hdur]
  | some d =>
      by_cases hgt : d > maxSeconds
      · simp [process_order_job, hdur, hgt]
      · cases p <;> cases s <;> cases u <;>
          simp [process_order_job, hdur, hgt, orchestrate, fallbackAttempted]

/-- C8 witness: in a concrete successful run the uploaded bytes are the
provider's bytes. -/
theorem C8_amended_witness :
    ProcAction.watermark ∉
        process_order_job 180 0 freshDoc (ProviderOutcome.ok "RAWVID")
          (ProviderOutcome.notOk "x") (Except.ok "http://signed") ∧
      orchestrate (ProviderOutcome.ok "RAWVID") (ProviderOutcome.notOk "x") =
        Except.ok "RAWVID" :=
  ⟨(C8_amended 180 0 freshDoc (ProviderOutcome.ok "RAWVID")
        (ProviderOutcome.notOk "x") (Except.ok "http://signed")).1,
    (C8_amended 180 0 freshDoc (ProviderOutcome.ok "RAWVID")
        (ProviderOutcome.notOk "x") (Except.ok "http://signed")).2.2
      "RAWVID" "orders/0.mp4" (by decide)⟩

/-- C9 counterexample: from the state right after a successful submission,
the worker poll loop starts an execution (the order is still "pending") and
the background task then starts a second one (it never checks the status):
a state with two executions of the same order in flight is reachable, so "at
most one execution of the same order is ever in flight" fails. -/
theorem C9_counterexample :
    Relation.ReflTransGen SchedStep postSubmit
      { status := Status.processing, taskQueued := false, inFlight := 2 } :=
  Relation.ReflTransGen.tail
    (Relation.ReflTransGen.single (SchedStep.pollStart postSubmit rfl))
    (SchedStep.bgStart
      { status := Status.processing, taskQueued := true, inFlight := 1 } rfl)

/-- C9 (amended): each scheduling path starts at most one execution — the
background task is consumed when it runs and the poll loop only starts
executions for orders still "pending" — so at most two executions of the
same order are ever in flight (one per path); the claimed bound of one does
not hold. -/
theorem C9_amended (s : SchedState)
    (h : Relation.ReflTransGen SchedStep postSubmit s) : s.inFlight ≤ 2 := by
  refine le_trans ?_ (schedMeasure_le h)
  unfold schedMeasure
  exact le_trans (Nat.le_add_right _ _) (Nat.le_add_right _ _)

/-- C9 witness: the post-submission state itself has no execution in
flight. -/
theorem C9_amended_witness : postSubmit.inFlight ≤ 2 :=
  C9_amended postSubmit Relation.ReflTransGen.refl

/-- An accepted submission comes from an accepted `generate` and appends the
created document to the store. -/
theorem submit_accepted {maxSeconds : Int} {store : List StoredOrder}
    {today : Nat} {req : GenerateRequest} {doc : OrderDoc}
    {resp : StatusResponse}
    (h : (submit maxSeconds store today req).2 =
      GenerateResult.accepted doc resp) :
    generate maxSeconds store.length req =
        GenerateResult.accepted doc resp ∧
      (submit maxSeconds store today req).1 =
        store ++ [⟨store.length, today, doc⟩] := by
  unfold submit at h ⊢
  cases hg : generate maxSeconds store.length req with
  | rejected c d =>
      rw [hg] at h
      exact absurd h (by simp)
  | accepted d r =>
      rw [hg] at h
      simp at h
      obtain ⟨rfl, rfl⟩ := h
      exact ⟨rfl, rfl⟩

/-- C10: a successful submission stores the order with status "pending"
(`create_order_doc`) while the HTTP response reports "processing", so a
client that immediately polls the status endpoint observes "pending" after
having been told "processing". -/
theorem C10_response_vs_store (maxSeconds : Int) (today : Nat)
    (req : GenerateRequest) (doc : OrderDoc) (resp : StatusResponse)
    (h : (submit maxSeconds [] today req).2 =
      GenerateResult.accepted doc resp) :
    resp.status = Status.processing ∧ doc.status = Status.pending ∧
      resp.status ≠ doc.status ∧
      statusEndpoint (submit maxSeconds [] today req).1 resp.orderId =
        Except.ok
          { orderId := resp.orderId, status := Status.pending,
            resultUrl := none, message := none } := by
  obtain ⟨hg, hstore⟩ := submit_accepted h
  unfold generate at hg
  cases hb : durationTooLong maxSeconds req.duration with
  | true => rw [if_pos hb] at hg; exact absurd hg (by simp)
  | false =>
      rw [if_neg (by simp [hb])] at hg
      simp only [GenerateResult.accepted.injEq] at hg
      obtain ⟨h1, h2⟩ := hg
      subst h1
      subst h2
      rw [hstore]
      exact ⟨rfl, rfl, fun hcon => Status.noConfusion hcon, rfl⟩

/-- C10 witness: a concrete 6-second submission is told "processing" while
the store answers "pending". -/
theorem C10_response_vs_store_witness :
    ({ orderId := 0, status := Status.processing, resultUrl := none,
        message := some "Order queued" } : StatusResponse).status =
        Status.processing ∧
      freshDoc.status = Status.pending ∧
      ({ orderId := 0, status := Status.processing, resultUrl := none,
          message := some "Order queued" } : StatusResponse).status ≠
        freshDoc.status ∧
      statusEndpoint
          (submit MAX_SECONDS_default [] 0
            { entryReq7 with duration := some 6 }).1 0 =
        Except.ok
          { orderId := 0, status := Status.pending, resultUrl := none,
            message := none } :=
  C10_response_vs_store MAX_SECONDS_default 0
    { entryReq7 with duration := some 6 } freshDoc
    { orderId := 0, status := Status.processing, resultUrl := none,
      message := some "Order queued" } (by decide)

end KStu
